import Mathlib

/-!
Verification of the agent-discovery query layer (`src/core/indexer.ts`,
class `AgentIndexer`). The TypeScript code is shallowly embedded: the
subgraph collaborator becomes a structure of pure functions, JS numbers
that can be `NaN` become the two-constructor type `JSNum`, optional /
possibly-`undefined` fields become `Option`, and thrown `Error`s become
`Except String`.
-/

namespace AgentIndexer

/-- A JavaScript number as used by this code: either `NaN` (produced by
`parseInt` on unparsable input) or an integer. -/
inductive JSNum where
  | nan : JSNum
  | int : Int → JSNum
deriving DecidableEq, BEq, Repr

/-- JS `+` on numbers restricted to this code's uses: `NaN` is absorbing. -/
def JSNum.add : JSNum → JSNum → JSNum
  | JSNum.int a, JSNum.int b => JSNum.int (a + b)
  | _, _ => JSNum.nan

/-- JS `String(n)` for the numbers this code produces. -/
def JSNum.toStr : JSNum → String
  | JSNum.nan => "NaN"
  | JSNum.int n => toString n

/-- JS whitespace skipped by `parseInt`. -/
def isWsChar (c : Char) : Bool :=
  c == ' ' || c == '\t' || c == '\n' || c == '\r'

/-- Value of a list of decimal digit characters. -/
def digitsVal (cs : List Char) : Nat :=
  cs.foldl (fun a c => a * 10 + (c.toNat - 48)) 0

/-- JS `parseInt(s, 10)`: skip leading whitespace, optional sign, then the
longest prefix of decimal digits; `NaN` when that prefix is empty. -/
def jsParseIntNum (s : String) : JSNum :=
  let cs := s.toList.dropWhile isWsChar
  match cs with
  | '-' :: rest =>
    let ds := rest.takeWhile Char.isDigit
    if ds.isEmpty then JSNum.nan else JSNum.int (-(digitsVal ds : Int))
  | '+' :: rest =>
    let ds := rest.takeWhile Char.isDigit
    if ds.isEmpty then JSNum.nan else JSNum.int (digitsVal ds : Int)
  | other =>
    let ds := other.takeWhile Char.isDigit
    if ds.isEmpty then JSNum.nan else JSNum.int (digitsVal ds : Int)

/-- JS truthiness of a possibly-`undefined` string: truthy iff present and
non-empty. -/
def jsTruthyStr : Option String → Bool
  | none => false
  | some s => !s.isEmpty

/-- JS `a || b` on strings (`b` when `a` is falsy, i.e. empty). -/
def jsStrOr (a b : String) : String :=
  if a.isEmpty then b else a

/-- JS `a || b` where `a` is a possibly-`undefined` string and `b` a string. -/
def jsoStrOr (a : Option String) (b : String) : String :=
  match a with
  | none => b
  | some s => if s.isEmpty then b else s

/-- JS `a || undefined` for a possibly-`undefined` string: collapses the
empty string to `undefined`. -/
def jsOrUndef (a : Option String) : Option String :=
  match a with
  | none => none
  | some s => if s.isEmpty then none else some s

/-- Modelled from the spec: `normalizeAddress` lives in
`src/utils/validation.ts`, which is not part of the sources; the spec says
it canonicalizes an address-like string so that equality comparison is
case/format independent. Lower-casing realizes that contract (written as
a character map so that the kernel can evaluate it). -/
def normalizeAddress (s : String) : String :=
  String.mk (s.data.map Char.toLower)

/-- Does `hay` start with `needle`? (JS `String.prototype.startsWith` on
char lists.) -/
def listStartsWith : List Char → List Char → Bool
  | _, [] => true
  | [], _ :: _ => false
  | a :: as, b :: bs => a == b && listStartsWith as bs

/-- JS `String.prototype.includes` on char lists: `needle` occurs
contiguously in `hay`. -/
def listContainsSub : List Char → List Char → Bool
  | [], needle => needle.isEmpty
  | h :: t, needle => listStartsWith (h :: t) needle || listContainsSub t needle

/-- JS `hay.toLowerCase().includes(needle.toLowerCase())`. -/
def strContainsLower (hay needle : String) : Bool :=
  listContainsSub (hay.data.map Char.toLower) (needle.data.map Char.toLower)

/-- JS `s.split(sep)` for a one-character separator, on char lists:
`""` splits to `[""]`, separators at either end produce empty pieces. -/
def splitOnChar (sep : Char) : List Char → List String
  | [] => [""]
  | c :: rest =>
    let r := splitOnChar sep rest
    if c == sep then "" :: r
    else
      match r with
      | [] => [String.mk [c]]
      | h :: t => String.mk (c :: h.data) :: t

/-- JS `s.split(':')` as used by the sort parser. -/
def jsSplitColon (s : String) : List String :=
  splitOnChar ':' s.data

/-- `AgentSummary` (src/models/interfaces.ts is not in the sources; the
field set is the one this file reads and writes, shapes per spec §3).
Fields the code accesses with `?.` or guards with `||` are `Option`. -/
structure AgentSummary where
  chainId : JSNum := JSNum.int 0
  agentId : String := ""
  name : Option String := none
  image : Option String := none
  description : String := ""
  owners : List String := []
  operators : List String := []
  mcp : Bool := false
  a2a : Bool := false
  ens : Option String := none
  did : Option String := none
  walletAddress : Option String := none
  supportedTrusts : Option (List String) := none
  a2aSkills : Option (List String) := none
  mcpTools : Option (List String) := none
  mcpPrompts : Option (List String) := none
  mcpResources : Option (List String) := none
  active : Bool := false
  x402support : Bool := false
  extrasAverageScore : Option JSNum := none
deriving DecidableEq, Repr

/-- `SearchParams`: optional criteria object (spec §3); absent fields are
`none`. -/
structure SearchParams where
  name : Option String := none
  mcp : Option Bool := none
  a2a : Option Bool := none
  ens : Option String := none
  did : Option String := none
  walletAddress : Option String := none
  supportedTrust : Option (List String) := none
  a2aSkills : Option (List String) := none
  mcpTools : Option (List String) := none
  mcpPrompts : Option (List String) := none
  mcpResources : Option (List String) := none
  active : Option Bool := none
  x402support : Option Bool := none
  chains : Option (List JSNum) := none
deriving DecidableEq, Repr

/-- The nested registration sub-record carried by a reputation record. -/
structure RegistrationFile where
  name : Option String := none
  image : Option String := none
  description : Option String := none
  mcpEndpoint : Option String := none
  a2aEndpoint : Option String := none
  ens : Option String := none
  did : Option String := none
  agentWallet : Option String := none
  supportedTrusts : Option (List String) := none
  a2aSkills : Option (List String) := none
  mcpTools : Option (List String) := none
  mcpPrompts : Option (List String) := none
  mcpResources : Option (List String) := none
  active : Option Bool := none
  x402support : Option Bool := none
deriving DecidableEq, Repr

/-- The record's `chainId` field may arrive as a string or a number
(`agent.chainId?.toString()`). -/
inductive ChainVal where
  | str : String → ChainVal
  | num : Int → ChainVal
deriving DecidableEq, Repr

/-- JS `.toString()` on a chainId value. -/
def ChainVal.toStr : ChainVal → String
  | ChainVal.str s => s
  | ChainVal.num n => toString n

/-- A record returned by the reputation query of the subgraph.
`averageScore = none` models JS `null`. -/
structure ReputationRecord where
  id : Option String := none
  chainId : Option ChainVal := none
  owner : Option String := none
  operators : Option (List String) := none
  registrationFile : Option RegistrationFile := none
  averageScore : Option JSNum := none
deriving DecidableEq, Repr

/-- The non-pagination criteria of `searchAgentsByReputation`, bundled
(the TS method takes them as nine leading positional parameters and
forwards them unchanged to the subgraph). -/
structure RepCriteria where
  agents : Option (List String) := none
  tags : Option (List String) := none
  reviewers : Option (List String) := none
  capabilities : Option (List String) := none
  skills : Option (List String) := none
  tasks : Option (List String) := none
  names : Option (List String) := none
  minAverageScore : Option JSNum := none
  includeRevoked : Bool := false
deriving DecidableEq, Repr

/-- The `SubgraphClient` collaborator (src/core/subgraph-client.ts is not
in the sources): a structure of pure query functions, per spec §2/§6.
`search`'s third argument is the offset, a `JSNum` because the indexer can
pass it `NaN`. -/
structure SubgraphClient where
  getAgentById : String → Option AgentSummary
  search : SearchParams → Nat → JSNum → List AgentSummary
  searchByReputation : RepCriteria → Nat → Nat → String → String → List ReputationRecord

/-- Result shape of both search operations. -/
structure SearchResult where
  items : List AgentSummary
  nextCursor : Option String
deriving DecidableEq, Repr

/-- `getAgent` (indexer.ts lines 25-37): use the subgraph if configured;
otherwise, or on a miss, throw the single generic error. -/
def getAgent (client : Option SubgraphClient) (agentId : String) :
    Except String AgentSummary :=
  match client with
  | some c =>
    match c.getAgentById agentId with
    | some a => Except.ok a
    | none =>
      Except.error ("Agent " ++ agentId ++ " not found. Subgraph required for querying.")
  | none =>
    Except.error ("Agent " ++ agentId ++ " not found. Subgraph required for querying.")

/-- Cursor decoding in `searchAgents` (line 55):
`cursor ? parseInt(cursor, 10) : 0`. An absent or empty (falsy) cursor
gives offset 0; otherwise JS `parseInt`, which can be `NaN`. -/
def decodeCursor : Option String → JSNum
  | none => JSNum.int 0
  | some s => if s.isEmpty then JSNum.int 0 else jsParseIntNum s

/-- The residual filter predicate of `_filterAgents` (lines 95-182). Each
`if (cond) return false` clause of the source becomes one conjunct
`!cond`. -/
def agentMatches (p : SearchParams) (a : AgentSummary) : Bool :=
  -- name: `name && !agent.name?.toLowerCase().includes(name.toLowerCase())`
  (!(jsTruthyStr p.name) || (match a.name with
    | some an => strContainsLower an (p.name.getD "")
    | none => false)) &&
  -- mcp: `mcp !== undefined && agent.mcp !== mcp`
  (match p.mcp with | none => true | some b => a.mcp == b) &&
  -- a2a
  (match p.a2a with | none => true | some b => a.a2a == b) &&
  -- ens: `ens && agent.ens && normalizeAddress(agent.ens) !== normalizeAddress(ens)`
  (!(jsTruthyStr p.ens && jsTruthyStr a.ens &&
      normalizeAddress (a.ens.getD "") != normalizeAddress (p.ens.getD ""))) &&
  -- did: `did && agent.did !== did`
  (!(jsTruthyStr p.did) || a.did == some (p.did.getD "")) &&
  -- walletAddress
  (!(jsTruthyStr p.walletAddress && jsTruthyStr a.walletAddress &&
      normalizeAddress (a.walletAddress.getD "") !=
        normalizeAddress (p.walletAddress.getD ""))) &&
  -- supportedTrust: `supportedTrust && supportedTrust.length > 0 && !some(...)`
  (match p.supportedTrust with
    | none => true
    | some l => if l.length == 0 then true
        else l.any (fun t => (a.supportedTrusts.getD []).contains t)) &&
  -- a2aSkills
  (match p.a2aSkills with
    | none => true
    | some l => if l.length == 0 then true
        else l.any (fun s => (a.a2aSkills.getD []).contains s)) &&
  -- mcpTools
  (match p.mcpTools with
    | none => true
    | some l => if l.length == 0 then true
        else l.any (fun t => (a.mcpTools.getD []).contains t)) &&
  -- mcpPrompts
  (match p.mcpPrompts with
    | none => true
    | some l => if l.length == 0 then true
        else l.any (fun t => (a.mcpPrompts.getD []).contains t)) &&
  -- mcpResources
  (match p.mcpResources with
    | none => true
    | some l => if l.length == 0 then true
        else l.any (fun t => (a.mcpResources.getD []).contains t)) &&
  -- active: `active !== undefined && agent.active !== active`
  (match p.active with | none => true | some b => a.active == b) &&
  -- x402support
  (match p.x402support with | none => true | some b => a.x402support == b) &&
  -- chains: `chains && chains.length > 0 && !chains.includes(agent.chainId)`
  (match p.chains with
    | none => true
    | some l => if l.length == 0 then true else l.contains a.chainId)

/-- `_filterAgents` (line 95): keep the agents passing every clause. -/
def filterAgents (agents : List AgentSummary) (p : SearchParams) :
    List AgentSummary :=
  agents.filter (agentMatches p)

/-- Body of `searchAgents` after the client guard (lines 54-74). -/
def searchAgentsWithClient (c : SubgraphClient) (params : SearchParams)
    (pageSize : Nat) (cursor : Option String) : SearchResult :=
  let skip := decodeCursor cursor
  let fetched := c.search params (pageSize + 1) skip
  let agents := filterAgents fetched params
  let hasMore := agents.length > pageSize
  let paginatedAgents := if hasMore then agents.take pageSize else agents
  let nextCursor := if hasMore then some ((skip.add (JSNum.int pageSize)).toStr) else none
  { items := paginatedAgents, nextCursor := nextCursor }

/-- `searchAgents` (lines 42-75): guard on the optional client, then the
body. -/
def searchAgents (client : Option SubgraphClient) (params : SearchParams)
    (pageSize : Nat) (cursor : Option String) :
    Except String SearchResult :=
  match client with
  | none => Except.error "Subgraph client required for agent search"
  | some c => Except.ok (searchAgentsWithClient c params pageSize cursor)

/-- Sort parsing of `searchAgentsByReputation` (lines 206-213): defaults
`("createdAt", "desc")`, overridden from the first entry's `:`-split; the
`as 'asc' | 'desc'` cast in the source is a compile-time annotation with
no runtime effect. -/
def parseSort (sort : List String) : String × String :=
  match sort with
  | [] => ("createdAt", "desc")
  | s :: _ =>
    let sortField := jsSplitColon s
    (jsStrOr (sortField.headD "") "createdAt", jsStrOr (sortField.getD 1 "") "desc")

/-- The per-record normalization of `searchAgentsByReputation`
(lines 233-260): reshape a `ReputationRecord` into an `AgentSummary`. -/
def toAgentSummary (rec : ReputationRecord) : AgentSummary :=
  let regFile := rec.registrationFile
  { chainId := jsParseIntNum (jsoStrOr (rec.chainId.map ChainVal.toStr) "0")
    agentId := jsoStrOr rec.id ""
    name := some (jsoStrOr (regFile.bind RegistrationFile.name) "")
    image := jsOrUndef (regFile.bind RegistrationFile.image)
    description := jsoStrOr (regFile.bind RegistrationFile.description) ""
    owners := match rec.owner with
      | some o => if o.isEmpty then [] else [normalizeAddress o]
      | none => []
    operators := (rec.operators.getD []).map normalizeAddress
    mcp := jsTruthyStr (regFile.bind RegistrationFile.mcpEndpoint)
    a2a := jsTruthyStr (regFile.bind RegistrationFile.a2aEndpoint)
    ens := jsOrUndef (regFile.bind RegistrationFile.ens)
    did := jsOrUndef (regFile.bind RegistrationFile.did)
    walletAddress := match regFile.bind RegistrationFile.agentWallet with
      | some w => if w.isEmpty then none else some (normalizeAddress w)
      | none => none
    supportedTrusts := some ((regFile.bind RegistrationFile.supportedTrusts).getD [])
    a2aSkills := some ((regFile.bind RegistrationFile.a2aSkills).getD [])
    mcpTools := some ((regFile.bind RegistrationFile.mcpTools).getD [])
    mcpPrompts := some ((regFile.bind RegistrationFile.mcpPrompts).getD [])
    mcpResources := some ((regFile.bind RegistrationFile.mcpResources).getD [])
    active := (regFile.bind RegistrationFile.active).getD false
    x402support := (regFile.bind RegistrationFile.x402support).getD false
    extrasAverageScore := rec.averageScore }

/-- Body of `searchAgentsByReputation` after the client guard
(lines 206-267). The collaborator is pure here, so the source's
`try/catch` wrapping of collaborator failures has no failing branch to
model. -/
def searchAgentsByReputationWithClient (c : SubgraphClient)
    (crit : RepCriteria) (first : Nat) (skip : Nat) (sort : List String) :
    SearchResult :=
  let ob := parseSort sort
  let agentsData := c.searchByReputation crit first skip ob.1 ob.2
  let items := agentsData.map toAgentSummary
  let nextCursor := if items.length == first then some (toString (skip + items.length)) else none
  { items := items, nextCursor := nextCursor }

/-- `searchAgentsByReputation` (lines 188-271): guard on the optional
client, then the body. -/
def searchAgentsByReputation (client : Option SubgraphClient)
    (crit : RepCriteria) (first : Nat) (skip : Nat) (sort : List String) :
    Except String SearchResult :=
  match client with
  | none => Except.error "Subgraph client required for reputation search"
  | some c => Except.ok (searchAgentsByReputationWithClient c crit first skip sort)

/-! ### Concrete fixtures used by witnesses and counterexamples -/

/-- A client whose every query misses / returns nothing. -/
def missClient : SubgraphClient :=
  { getAgentById := fun _ => none
    search := fun _ _ _ => []
    searchByReputation := fun _ _ _ _ _ => [] }

/-- A client whose `search` answers a fixed record list whatever the
query. -/
def constClient (l : List AgentSummary) : SubgraphClient :=
  { getAgentById := fun _ => none
    search := fun _ _ _ => l
    searchByReputation := fun _ _ _ _ _ => [] }

def sampleAgentA : AgentSummary := { agentId := "a1" }
def sampleAgentB : AgentSummary := { agentId := "a2" }
def sampleAgentC : AgentSummary := { agentId := "a3" }

/-- A client whose `search` yields a record only when invoked with a `NaN`
offset, so a non-empty answer proves the offset argument was `NaN`. -/
def nanProbeClient : SubgraphClient :=
  { getAgentById := fun _ => none
    search := fun _ _ off => if off = JSNum.nan then [sampleAgentA] else []
    searchByReputation := fun _ _ _ _ _ => [] }

/-- A client whose reputation query yields a record only when invoked with
order direction "up", so a non-empty answer proves "up" was passed on. -/
def dirProbeClient : SubgraphClient :=
  { getAgentById := fun _ => none
    search := fun _ _ _ => []
    searchByReputation := fun _ _ _ _ dir => if dir = "up" then [{}] else [] }

/-- A client whose reputation query returns three records even when asked
for fewer. -/
def threeRepClient : SubgraphClient :=
  { getAgentById := fun _ => none
    search := fun _ _ _ => []
    searchByReputation := fun _ _ _ _ _ => [{}, {}, {}] }

/-! ### Claims -/

/-- C1, counterexample: with no subgraph client configured, `getAgent`
does not fail with a `ConfigurationError` reading "backing index
required"; it throws the generic not-found message. -/
theorem getAgent_unconfigured_message_not_backing_index :
    getAgent none "agent-1" =
      Except.error "Agent agent-1 not found. Subgraph required for querying." ∧
    "Agent agent-1 not found. Subgraph required for querying." ≠
      "backing index required" := by
  exact ⟨rfl, by decide⟩

/-- C1 (amended): with no subgraph client configured, `getAgent` fails,
but with the same generic error used for a lookup miss ("Agent {id} not
found. Subgraph required for querying."); a configuration failure is not
distinguished from a not-found failure. -/
theorem getAgent_unconfigured_generic_failure (agentId : String)
    (c : SubgraphClient) (h : c.getAgentById agentId = none) :
    getAgent none agentId =
      Except.error ("Agent " ++ agentId ++ " not found. Subgraph required for querying.") ∧
    getAgent (some c) agentId = getAgent none agentId := by
  refine ⟨rfl, ?_⟩
  simp [getAgent, h]

/-- Witness for C1's amended theorem at a concrete missing id and
client. -/
theorem getAgent_unconfigured_generic_failure_witness :
    missClient.getAgentById "agent-1" = none ∧
    (getAgent none "agent-1" =
      Except.error ("Agent " ++ "agent-1" ++ " not found. Subgraph required for querying.") ∧
     getAgent (some missClient) "agent-1" = getAgent none "agent-1") :=
  ⟨rfl, getAgent_unconfigured_generic_failure "agent-1" missClient rfl⟩

/-- C2: a present non-numeric cursor ("abc") is decoded to `NaN`, and that
`NaN` offset is handed to the subgraph fetch — with a client that answers
only when called at a `NaN` offset, the record comes back; no
`InvalidCursorError` exists in the code. -/
theorem searchAgents_nan_cursor_reaches_fetch :
    decodeCursor (some "abc") = JSNum.nan ∧
    searchAgents (some nanProbeClient) {} 1 (some "abc") =
      Except.ok { items := [sampleAgentA], nextCursor := none } := by
  exact ⟨by decide, rfl⟩

/-- Every item returned by the search body passed the residual filter. -/
theorem agentMatches_of_mem_items (c : SubgraphClient) (p : SearchParams)
    (pageSize : Nat) (cursor : Option String) (a : AgentSummary)
    (ha : a ∈ (searchAgentsWithClient c p pageSize cursor).items) :
    agentMatches p a = true := by
  have hf : a ∈ filterAgents (c.search p (pageSize + 1) (decodeCursor cursor)) p := by
    simp only [searchAgentsWithClient] at ha
    by_cases h :
        (filterAgents (c.search p (pageSize + 1) (decodeCursor cursor)) p).length > pageSize
    · simp only [h, if_pos] at ha
      exact List.take_subset pageSize _ ha
    · simpa only [h, if_neg] using ha
  exact (List.mem_filter.mp hf).2

/-- Fixtures for C3: an ens criterion, an agent with no ens value, and a
matching pair differing only in address case. -/
def ensCrit : SearchParams := { ens := some "0xAB" }

def noEnsAgent : AgentSummary := { agentId := "x" }

def ensAgent : AgentSummary := { agentId := "y", ens := some "0xAB" }

def ensCritLower : SearchParams := { ens := some "0xab" }

/-- C3, counterexample: under the present non-empty ens criterion "0xAB",
an agent whose own ens field is absent still passes the residual filter
and is returned — contradicting "absent agent value counts as
non-match". -/
theorem searchAgents_absent_ens_still_returned :
    jsTruthyStr ensCrit.ens = true ∧
    noEnsAgent.ens = none ∧
    (searchAgentsWithClient (constClient [noEnsAgent]) ensCrit 5 none).items =
      [noEnsAgent] := by
  decide

/-- C3 (amended): under a present non-empty ens (resp. walletAddress)
criterion, every record returned by the search body whose own ens (resp.
walletAddress) value is itself present and non-empty agrees with the
criterion under address normalization; records with an absent or empty
value pass the test unchecked (absent agent value counts as a match). -/
theorem searchAgents_ens_wallet_residual (c : SubgraphClient)
    (p : SearchParams) (pageSize : Nat) (cursor : Option String)
    (a : AgentSummary)
    (ha : a ∈ (searchAgentsWithClient c p pageSize cursor).items) :
    (jsTruthyStr p.ens = true → jsTruthyStr a.ens = true →
      normalizeAddress (a.ens.getD "") = normalizeAddress (p.ens.getD "")) ∧
    (jsTruthyStr p.walletAddress = true → jsTruthyStr a.walletAddress = true →
      normalizeAddress (a.walletAddress.getD "") =
        normalizeAddress (p.walletAddress.getD "")) := by
  have hm := agentMatches_of_mem_items c p pageSize cursor a ha
  simp only [agentMatches, Bool.and_eq_true] at hm
  obtain ⟨⟨⟨⟨⟨⟨⟨⟨⟨⟨⟨⟨⟨_, _⟩, _⟩, hens⟩, _⟩, hwal⟩, _⟩, _⟩, _⟩, _⟩, _⟩, _⟩, _⟩, _⟩ := hm
  constructor
  · intro hpe hae
    rw [hpe, hae] at hens
    simpa using hens
  · intro hpw haw
    rw [hpw, haw] at hwal
    simpa using hwal

/-- Witness for C3's amended theorem: a returned agent whose ens differs
from the criterion only in case, equal after normalization. -/
theorem searchAgents_ens_wallet_residual_witness :
    ensAgent ∈ (searchAgentsWithClient (constClient [ensAgent]) ensCritLower 5 none).items ∧
    normalizeAddress (ensAgent.ens.getD "") =
      normalizeAddress (ensCritLower.ens.getD "") := by
  have hitems :
      (searchAgentsWithClient (constClient [ensAgent]) ensCritLower 5 none).items =
        [ensAgent] := rfl
  have hmem : ensAgent ∈
      (searchAgentsWithClient (constClient [ensAgent]) ensCritLower 5 none).items := by
    rw [hitems]
    exact List.mem_singleton.mpr rfl
  exact ⟨hmem,
    (searchAgents_ens_wallet_residual (constClient [ensAgent]) ensCritLower 5 none
      ensAgent hmem).1 (by decide) (by decide)⟩

/-- C4, counterexample: the `{asc, desc}` constraint on the sort direction
is a compile-time cast only — `sort = ["score:up"]` parses to direction
"up", which is neither "asc" nor "desc", and that direction is handed
verbatim to the subgraph (a client answering only for direction "up"
returns its record). -/
theorem parseSort_direction_unvalidated :
    parseSort ["score:up"] = ("score", "up") ∧
    ("up" ≠ "asc" ∧ "up" ≠ "desc") ∧
    (searchAgentsByReputationWithClient dirProbeClient {} 5 0 ["score:up"]).items.length = 1 := by
  exact ⟨rfl, by decide, rfl⟩

/-- C4 (amended): sort parsing uses only the first entry of `sort` (later
entries change nothing, also at the level of the whole operation); an
empty list gives the defaults `("createdAt", "desc")`; the left part of
the `:`-split becomes orderBy (default "createdAt" when empty) and the
right part becomes orderDirection verbatim, with no runtime restriction
to asc/desc, defaulting to "desc" when empty or missing. -/
theorem parseSort_first_entry_and_defaults (s : String) (rest : List String)
    (c : SubgraphClient) (crit : RepCriteria) (first skip : Nat) :
    parseSort (s :: rest) = parseSort [s] ∧
    searchAgentsByReputationWithClient c crit first skip (s :: rest) =
      searchAgentsByReputationWithClient c crit first skip [s] ∧
    parseSort [] = ("createdAt", "desc") ∧
    parseSort ["score:asc"] = ("score", "asc") ∧
    parseSort ["score"] = ("score", "desc") ∧
    parseSort ["score:"] = ("score", "desc") ∧
    parseSort [":asc"] = ("createdAt", "asc") ∧
    parseSort [""] = ("createdAt", "desc") := by
  exact ⟨rfl, rfl, rfl, rfl, rfl, rfl, rfl, rfl⟩

/-- C5: when the cursor decodes to the integer offset `off`, `searchAgents`
fetches exactly `pageSize + 1` records at offset `off`, and then: if the
residually filtered count exceeds `pageSize` it returns the first
`pageSize` filtered items with `nextCursor` the decimal string of
`off + pageSize`, otherwise all filtered items with no `nextCursor`. -/
theorem searchAgents_pagination (c : SubgraphClient) (p : SearchParams)
    (pageSize : Nat) (cursor : Option String) (off : Int)
    (h : decodeCursor cursor = JSNum.int off) :
    searchAgents (some c) p pageSize cursor =
      Except.ok
        (let filtered := filterAgents (c.search p (pageSize + 1) (JSNum.int off)) p
         if pageSize < filtered.length then
           { items := filtered.take pageSize
             nextCursor := some (toString (off + (pageSize : Int))) }
         else { items := filtered, nextCursor := none }) := by
  simp only [searchAgents, searchAgentsWithClient, h]
  by_cases hm :
      pageSize < (filterAgents (c.search p (pageSize + 1) (JSNum.int off)) p).length
  · simp [hm, JSNum.add, JSNum.toStr]
  · simp [hm]

/-- Witness for C5 at a concrete client, cursor "4" and page size 2: the
three fetched records are cut to two and the next cursor is "6". -/
theorem searchAgents_pagination_witness :
    decodeCursor (some "4") = JSNum.int 4 ∧
    searchAgents (some (constClient [sampleAgentA, sampleAgentB, sampleAgentC])) {} 2 (some "4") =
      Except.ok { items := [sampleAgentA, sampleAgentB], nextCursor := some "6" } := by
  refine ⟨by decide, ?_⟩
  rw [searchAgents_pagination (constClient [sampleAgentA, sampleAgentB, sampleAgentC])
    {} 2 (some "4") 4 (by decide)]
  rfl

/-- C6: `searchAgentsByReputation` maps every record the source returns
and sets `nextCursor` to the decimal string of `skip` plus the returned
count exactly when the source returned `first` records; a short (or long)
page leaves `nextCursor` absent. -/
theorem searchAgentsByReputation_nextCursor (c : SubgraphClient)
    (crit : RepCriteria) (first skip : Nat) (sort : List String) :
    searchAgentsByReputation (some c) crit first skip sort =
      Except.ok
        (let returned := c.searchByReputation crit first skip (parseSort sort).1 (parseSort sort).2
         { items := returned.map toAgentSummary
           nextCursor :=
             if returned.length = first then some (toString (skip + returned.length)) else none }) := by
  simp only [searchAgentsByReputation, searchAgentsByReputationWithClient, List.length_map]
  by_cases h :
      (c.searchByReputation crit first skip (parseSort sort).1 (parseSort sort).2).length = first
  · simp [h]
  · simp [h]

/-- A reputation record whose chainId string does not parse and whose
registration record carries an empty-string mcp endpoint. -/
def badRepRecord : ReputationRecord :=
  { chainId := some (ChainVal.str "notanumber")
    registrationFile := some { mcpEndpoint := some "" } }

/-- C7, counterexample: a chainId string that fails to parse yields `NaN`,
not the claimed fallback 0; and an mcpEndpoint that is present but empty
yields `mcp = false` although the endpoint is present. -/
theorem toAgentSummary_nan_chainId_empty_endpoint :
    (toAgentSummary badRepRecord).chainId = JSNum.nan ∧
    JSNum.nan ≠ JSNum.int 0 ∧
    badRepRecord.registrationFile.bind RegistrationFile.mcpEndpoint = some "" ∧
    (toAgentSummary badRepRecord).mcp = false := by
  decide

/-- C7 (amended): the summary's chainId is 0 when the record's chainId is
absent or stringifies to the empty string, and otherwise is the JS
`parseInt` of the string form — which is `NaN`, not 0, when that string
does not parse; `mcp` and `a2a` are true exactly when the nested
registration record's corresponding endpoint is present and non-empty. -/
theorem toAgentSummary_chainId_and_capabilities (rec : ReputationRecord) :
    (toAgentSummary rec).chainId =
      (match rec.chainId with
       | none => JSNum.int 0
       | some (ChainVal.str s) => if s.isEmpty then JSNum.int 0 else jsParseIntNum s
       | some (ChainVal.num n) => jsParseIntNum (jsStrOr (toString n) "0")) ∧
    (toAgentSummary rec).mcp =
      jsTruthyStr (rec.registrationFile.bind RegistrationFile.mcpEndpoint) ∧
    (toAgentSummary rec).a2a =
      jsTruthyStr (rec.registrationFile.bind RegistrationFile.a2aEndpoint) := by
  have h0 : jsParseIntNum "0" = JSNum.int 0 := by decide
  refine ⟨?_, rfl, rfl⟩
  cases h : rec.chainId with
  | none => simp [toAgentSummary, h, jsoStrOr, h0]
  | some v =>
    cases v with
    | str s =>
      by_cases hs : s.isEmpty
      · simp [toAgentSummary, h, jsoStrOr, ChainVal.toStr, hs, h0]
      · simp [toAgentSummary, h, jsoStrOr, ChainVal.toStr, hs]
    | num n =>
      simp [toAgentSummary, h, jsoStrOr, ChainVal.toStr, jsStrOr]

/-- C8, counterexample: `searchAgentsByReputation` never truncates, so a
source that answers three records to a request with `first = 2` makes the
operation return three items — more than `first`. -/
theorem searchAgentsByReputation_can_exceed_first :
    ¬ (searchAgentsByReputationWithClient threeRepClient {} 2 0 ["createdAt:desc"]).items.length ≤ 2 := by
  decide

/-- C8 (amended): `searchAgents` always returns at most `pageSize` items,
for every client response; `searchAgentsByReputation` returns exactly as
many items as the source returned, so its `first` bound holds only when
the source honors the requested limit. -/
theorem search_result_length_bounds :
    (∀ (c : SubgraphClient) (p : SearchParams) (pageSize : Nat) (cursor : Option String),
      (searchAgentsWithClient c p pageSize cursor).items.length ≤ pageSize) ∧
    (∀ (c : SubgraphClient) (crit : RepCriteria) (first skip : Nat) (sort : List String),
      (searchAgentsByReputationWithClient c crit first skip sort).items.length =
        (c.searchByReputation crit first skip (parseSort sort).1 (parseSort sort).2).length) := by
  constructor
  · intro c p pageSize cursor
    simp only [searchAgentsWithClient]
    by_cases h :
        (filterAgents (c.search p (pageSize + 1) (decodeCursor cursor)) p).length > pageSize
    · simp [h, List.length_take]
    · simp only [h, if_neg, not_false_eq_true]
      omega
  · intro c crit first skip sort
    simp [searchAgentsByReputationWithClient, List.length_map]

/-- C9: the returned page of `searchAgents` is a sublist (order-preserving,
duplicate-free selection) of the record sequence the subgraph returned:
residual filtering and truncation only remove elements. -/
theorem searchAgents_items_sublist (c : SubgraphClient) (p : SearchParams)
    (pageSize : Nat) (cursor : Option String) :
    ((searchAgentsWithClient c p pageSize cursor).items).Sublist
      (c.search p (pageSize + 1) (decodeCursor cursor)) := by
  simp only [searchAgentsWithClient]
  by_cases h :
      (filterAgents (c.search p (pageSize + 1) (decodeCursor cursor)) p).length > pageSize
  · simp only [h, if_pos]
    exact (List.take_sublist _ _).trans (List.filter_sublist _)
  · simp only [h, if_neg, not_false_eq_true]
    exact List.filter_sublist _

/-- C10: an empty-string criterion for name, ens, did or walletAddress is
falsy, so the residual filter treats it exactly like an absent criterion:
filtering with the field set to `""` equals filtering with it unset. -/
theorem filterAgents_empty_string_no_constraint (agents : List AgentSummary)
    (p : SearchParams) :
    filterAgents agents { p with name := some "" } =
      filterAgents agents { p with name := none } ∧
    filterAgents agents { p with ens := some "" } =
      filterAgents agents { p with ens := none } ∧
    filterAgents agents { p with did := some "" } =
      filterAgents agents { p with did := none } ∧
    filterAgents agents { p with walletAddress := some "" } =
      filterAgents agents { p with walletAddress := none } := by
  refine ⟨?_, ?_, ?_, ?_⟩ <;>
    · apply List.filter_congr
      intro a _
      simp [agentMatches, jsTruthyStr, show "".isEmpty = true from rfl]

end AgentIndexer
